import Mathlib

/-!
Shallow embedding of the VM-administration menu console (`5.2Menu.py`).

Each interactive handler is modelled as a pure function of:
  * the VM inventory (`List VM`, the result of `search_vms`),
  * the user's input stream (`Nat → String`, the successive `input()` results,
    consumed left to right),
  * the Task Invoker environment (`Invoker`): for each remote call, whether it
    raises an exception and the exception's text.
A handler returns a `HandlerResult`: the list of lines it prints and the list
of Task Invoker calls it makes (a call is recorded even when it raises).
Leading blank lines produced by `print("\n...")` are elided from the message
text; the visible text of every message is kept verbatim (single quotes are
produced via `sq` below).
-/

namespace VC

/-- Power state of a VM as reported by the directory (`vim.VirtualMachinePowerState`). -/
inductive PowerState
  | poweredOn
  | poweredOff
  | suspended
deriving DecidableEq, Repr

/-- A VM as the handlers observe it: its current name and power state. -/
structure VM where
  name : String
  powerState : PowerState
deriving DecidableEq, Repr

/-- A call to the Task Invoker (the mutating pyVmomi methods used by the handlers). -/
inductive Call
  | powerOn (vmName : String)
  | powerOff (vmName : String)
  | createSnapshot (vmName snapName snapDesc : String)
  | destroy (vmName : String)
  | reconfigure (vmName : String) (numCPUs : Option Int) (memoryMB : Option Int)
  | rename (vmName newName : String)
deriving DecidableEq, Repr

/-- The VM a Task Invoker call targets. -/
def Call.vmNameOf : Call → String
  | .powerOn n => n
  | .powerOff n => n
  | .createSnapshot n _ _ => n
  | .destroy n => n
  | .reconfigure n _ _ => n
  | .rename n _ => n

/-- Environment of the Task Invoker: which calls raise, and the exception text. -/
structure Invoker where
  fails : Call → Bool
  err : Call → String

/-- What a handler run produces: printed lines and Task Invoker calls, in order. -/
structure HandlerResult where
  out : List String
  calls : List Call
deriving DecidableEq, Repr

/-- Drop leading whitespace characters. -/
def dropLeadingWs : List Char → List Char
  | [] => []
  | c :: t => if c.isWhitespace then dropLeadingWs t else c :: t

/-- Python `s.strip()`: remove leading and trailing whitespace. -/
def pyStrip (s : String) : String :=
  String.mk ((dropLeadingWs (dropLeadingWs s.toList).reverse).reverse)

/-- Python `s.upper()` (ASCII case mapping). -/
def pyUpper (s : String) : String := String.mk (s.toList.map Char.toUpper)

/-- Python `s.lower()` (ASCII case mapping). -/
def pyLower (s : String) : String := String.mk (s.toList.map Char.toLower)

/-- Does `needle` occur as a leading run of `hay`? (chars) -/
def leadsChars : List Char → List Char → Bool
  | [], _ => true
  | _ :: _, [] => false
  | c :: cs, d :: ds => c == d && leadsChars cs ds

/-- Python `needle in hay` on character lists. -/
def charsIn (n : List Char) : List Char → Bool
  | [] => n.isEmpty
  | c :: t => leadsChars n (c :: t) || charsIn n t

/-- Python string containment `needle in hay`. -/
def pyIn (needle hay : String) : Bool := charsIn needle.toList hay.toList

/-- The name filter used everywhere: `vm_name.lower() in vm.name.lower()`. -/
def nameMatches (flt : String) (vm : VM) : Bool := pyIn (pyLower flt) (pyLower vm.name)

/-- `[vm for vm in vms if vm_name.lower() in vm.name.lower()]`. -/
def matchTargets (vms : List VM) (flt : String) : List VM := vms.filter (nameMatches flt)

/-- Numeric value of a decimal digit character. -/
def digitVal (c : Char) : Nat := c.toNat - 48

/-- Digits of a Python int literal after the first digit: single underscores
allowed between digits, as accepted by `int()`. -/
def digitsLoop (acc : Nat) : List Char → Option Nat
  | [] => some acc
  | '_' :: c :: rest =>
      if c.isDigit then digitsLoop (10 * acc + digitVal c) rest else none
  | ['_'] => none
  | c :: rest =>
      if c.isDigit then digitsLoop (10 * acc + digitVal c) rest else none

/-- A nonempty all-digit (with medial underscores) character run. -/
def parseDigits : List Char → Option Nat
  | [] => none
  | c :: rest => if c.isDigit then digitsLoop (digitVal c) rest else none

/-- Python `int(s)`: strip whitespace, optional sign, decimal digits; `none`
models the `ValueError` raise. -/
def pyInt (s : String) : Option Int :=
  match (pyStrip s).toList with
  | '+' :: rest => (parseDigits rest).map (fun n => (n : Int))
  | '-' :: rest => (parseDigits rest).map (fun n => -(n : Int))
  | l => (parseDigits l).map (fun n => (n : Int))

/-- A single-quote character as a string (U+0027), for message text. -/
def sq : String := String.mk [Char.ofNat 39]

/-- Quote a name in single quotes, as the f-strings do. -/
def quoted (n : String) : String := sq ++ n ++ sq

/-- `f"No VM found matching '{vm_name}'"`. -/
def msgNoVmFound (flt : String) : String := "No VM found matching " ++ quoted flt

/-- The per-VM inventory listing printed at the top of every handler. -/
def vmListing (vms : List VM) : List String := vms.map (fun vm => "  - " ++ vm.name)

/-- The lines every handler prints before its first prompt. -/
def handlerHeader (title : String) (vms : List VM) : List String :=
  title :: "VMs managed by vCenter:" :: vmListing vms

/-- `f"{vm.name} is already powered on, skipping!"`. -/
def msgSkipOn (n : String) : String := n ++ " is already powered on, skipping!"

/-- `f"{vm.name} is not powered on, powering on now!"`. -/
def msgPowerOnNow (n : String) : String := n ++ " is not powered on, powering on now!"

/-- `f"{vm.name} is now powered on!"`. -/
def msgPoweredOn (n : String) : String := n ++ " is now powered on!"

/-- `f"Failed to power on {vm.name}: {e}"`. -/
def msgFailPowerOn (n e : String) : String := "Failed to power on " ++ n ++ ": " ++ e

/-- `f"{vm.name} is already powered off, skipping!"`. -/
def msgSkipOff (n : String) : String := n ++ " is already powered off, skipping!"

/-- `f"{vm.name} is powered on, powering off now!"` (printed for any non-off state). -/
def msgPowerOffNow (n : String) : String := n ++ " is powered on, powering off now!"

/-- `f"{vm.name} is now powered off!"`. -/
def msgPoweredOff (n : String) : String := n ++ " is now powered off!"

/-- `f"Failed to power off {vm.name}: {e}"`. -/
def msgFailPowerOff (n e : String) : String := "Failed to power off " ++ n ++ ": " ++ e

/-- The per-VM body of `power_on_vm`'s loop over `target_vms`. -/
def powerOnLoop (inv : Invoker) : List VM → List String × List Call
  | [] => ([], [])
  | vm :: rest =>
    let n := vm.name
    let r := powerOnLoop inv rest
    if vm.powerState = PowerState.poweredOn then
      (msgSkipOn n :: r.1, r.2)
    else
      let c := Call.powerOn n
      let tailMsg := if inv.fails c then msgFailPowerOn n (inv.err c) else msgPoweredOn n
      (msgPowerOnNow n :: tailMsg :: r.1, c :: r.2)

/-- The per-VM body of `power_off_vm`'s loop over `target_vms`. -/
def powerOffLoop (inv : Invoker) : List VM → List String × List Call
  | [] => ([], [])
  | vm :: rest =>
    let n := vm.name
    let r := powerOffLoop inv rest
    if vm.powerState = PowerState.poweredOff then
      (msgSkipOff n :: r.1, r.2)
    else
      let c := Call.powerOff n
      let tailMsg := if inv.fails c then msgFailPowerOff n (inv.err c) else msgPoweredOff n
      (msgPowerOffNow n :: tailMsg :: r.1, c :: r.2)

/-- `power_on_vm(si)`: input 0 is the name filter; in ALL mode input 1 is the
Y/N bulk confirmation. -/
def power_on_vm (vms : List VM) (inp : Nat → String) (inv : Invoker) : HandlerResult :=
  let header := handlerHeader "=== Power On VM(s) ===" vms
  let vm_name := pyStrip (inp 0)
  if vm_name ≠ "" then
    let target_vms := matchTargets vms vm_name
    if target_vms.isEmpty then
      { out := header ++ [msgNoVmFound vm_name], calls := [] }
    else
      let r := powerOnLoop inv target_vms
      { out := header ++ r.1, calls := r.2 }
  else
    let confirm := pyUpper (pyStrip (inp 1))
    if confirm ≠ "Y" then
      { out := header ++ ["Cancelled."], calls := [] }
    else
      let r := powerOnLoop inv vms
      { out := header ++ r.1, calls := r.2 }

/-- `power_off_vm(si)`: input 0 is the name filter; in ALL mode input 1 is the
Y/N bulk confirmation. -/
def power_off_vm (vms : List VM) (inp : Nat → String) (inv : Invoker) : HandlerResult :=
  let header := handlerHeader "=== Power Off VM(s) ===" vms
  let vm_name := pyStrip (inp 0)
  if vm_name ≠ "" then
    let target_vms := matchTargets vms vm_name
    if target_vms.isEmpty then
      { out := header ++ [msgNoVmFound vm_name], calls := [] }
    else
      let r := powerOffLoop inv target_vms
      { out := header ++ r.1, calls := r.2 }
  else
    let confirm := pyUpper (pyStrip (inp 1))
    if confirm ≠ "Y" then
      { out := header ++ ["Cancelled."], calls := [] }
    else
      let r := powerOffLoop inv vms
      { out := header ++ r.1, calls := r.2 }

/-- `f"Creating snapshot '{snapshot_name}' for {vm.name}..."`. -/
def msgCreatingSnap (sn n : String) : String :=
  "Creating snapshot " ++ quoted sn ++ " for " ++ n ++ "..."

/-- `f"Snapshot '{snapshot_name}' created successfully!"`. -/
def msgSnapCreated (sn : String) : String :=
  "Snapshot " ++ quoted sn ++ " created successfully!"

/-- `f"Failed to create snapshot: {e}"` — note: no VM name in this message. -/
def msgFailSnap (e : String) : String := "Failed to create snapshot: " ++ e

/-- `create_snapshot(si)`: inputs are name filter (0), Y/N confirmation (1),
snapshot name (2), description (3); `now` is the `time.strftime` timestamp
used for the default snapshot name. The snapshot is taken with
`memory=False, quiesce=False` (constants, not modelled in `Call`). -/
def create_snapshot (vms : List VM) (inp : Nat → String) (inv : Invoker) (now : String) :
    HandlerResult :=
  let header := handlerHeader "=== Take a Snapshot ===" vms
  let vm_name := pyStrip (inp 0)
  match matchTargets vms vm_name with
  | [] => { out := header ++ [msgNoVmFound vm_name], calls := [] }
  | vm :: _ =>
    let n := vm.name
    let confirm := pyUpper (pyStrip (inp 1))
    if confirm ≠ "Y" then
      { out := header ++ ["Cancelled."], calls := [] }
    else
      let entered := pyStrip (inp 2)
      let snapshot_name := if entered = "" then "Snapshot-" ++ now else entered
      let snapshot_description := pyStrip (inp 3)
      let c := Call.createSnapshot n snapshot_name snapshot_description
      let tailMsg := if inv.fails c then msgFailSnap (inv.err c) else msgSnapCreated snapshot_name
      { out := header ++ [msgCreatingSnap snapshot_name n, tailMsg], calls := [c] }

/-- `f"⚠️  WARNING: You are about to DELETE '{vm.name}' permanently!"`. -/
def msgDeleteWarning (n : String) : String :=
  "⚠️  WARNING: You are about to DELETE " ++ quoted n ++ " permanently!"

/-- `f"{vm.name} must be powered off before deletion."`. -/
def msgMustPowerOff (n : String) : String := n ++ " must be powered off before deletion."

/-- `f"{vm.name} powered off."`. -/
def msgPoweredOffOk (n : String) : String := n ++ " powered off."

/-- `f"Failed to power off: {e}"` (delete's nested power-off failure). -/
def msgFailPowerOffShort (e : String) : String := "Failed to power off: " ++ e

/-- `f"Deleting {vm.name} from disk..."`. -/
def msgDeleting (n : String) : String := "Deleting " ++ n ++ " from disk..."

/-- `f"✓ {vm.name} has been deleted successfully!"`. -/
def msgDeleted (n : String) : String := "✓ " ++ n ++ " has been deleted successfully!"

/-- `f"Failed to delete VM: {e}"` — note: no VM name in this message. -/
def msgFailDelete (e : String) : String := "Failed to delete VM: " ++ e

/-- The final `Destroy_Task` stage of `delete_vm`, after the power-off check:
`pre`/`cs` are the output and calls accumulated so far. -/
def deleteFinal (inv : Invoker) (n : String) (pre : List String) (cs : List Call) :
    HandlerResult :=
  let c := Call.destroy n
  let tailMsg := if inv.fails c then msgFailDelete (inv.err c) else msgDeleted n
  { out := pre ++ [msgDeleting n, tailMsg], calls := cs ++ [c] }

/-- `delete_vm(si)`: inputs are name filter (0), the `YES/NO` acknowledgment
(1), the typed VM name (2), and — only when the target is not powered off —
the nested power-off Y/N confirmation (3). -/
def delete_vm (vms : List VM) (inp : Nat → String) (inv : Invoker) : HandlerResult :=
  let header := handlerHeader "=== Delete a VM ===" vms
  let vm_name := pyStrip (inp 0)
  match matchTargets vms vm_name with
  | [] => { out := header ++ [msgNoVmFound vm_name], calls := [] }
  | vm :: _ =>
    let n := vm.name
    let pre := header ++ [msgDeleteWarning n]
    let confirm1 := pyUpper (pyStrip (inp 1))
    if confirm1 ≠ "YES" then
      { out := pre ++ ["Cancelled."], calls := [] }
    else
      let confirm2 := pyStrip (inp 2)
      if confirm2 ≠ n then
        { out := pre ++ ["VM name does not match. Deletion cancelled."], calls := [] }
      else
        if vm.powerState ≠ PowerState.poweredOff then
          let pre2 := pre ++ [msgMustPowerOff n]
          let power_off := pyUpper (pyStrip (inp 3))
          if power_off = "Y" then
            let c := Call.powerOff n
            if inv.fails c then
              { out := pre2 ++ [msgFailPowerOffShort (inv.err c)], calls := [c] }
            else
              deleteFinal inv n (pre2 ++ [msgPoweredOffOk n]) [c]
          else
            { out := pre2 ++ ["Deletion cancelled."], calls := [] }
        else
          deleteFinal inv n pre []

/-- `f"⚠️  {vm.name} must be powered off to reconfigure hardware!"`. -/
def msgMustBeOffReconf (n : String) : String :=
  "⚠️  " ++ n ++ " must be powered off to reconfigure hardware!"

/-- `f"Reconfiguring {vm.name}..."`. -/
def msgReconfiguring (n : String) : String := "Reconfiguring " ++ n ++ "..."

/-- `f"✓ {vm.name} has been reconfigured!"`. -/
def msgReconfigured (n : String) : String := "✓ " ++ n ++ " has been reconfigured!"

/-- `f"  - CPUs: {new_cpu}"`. -/
def msgCpuSet (v : Int) : String := "  - CPUs: " ++ toString v

/-- `f"  - Memory: {new_memory_gb} GB"`. -/
def msgMemSet (v : Int) : String := "  - Memory: " ++ toString v ++ " GB"

/-- `f"Failed to reconfigure VM: {e}"` — note: no VM name in this message. -/
def msgFailReconf (e : String) : String := "Failed to reconfigure VM: " ++ e

/-- Python truthiness of the optional new value: `None` and `0` are falsy, so
`if new_cpu:` skips both. -/
def optTruthy : Option Int → Option Int
  | some v => if v = 0 then none else some v
  | none => none

/-- The `ConfigSpec` assembly and `Reconfigure` call of `reconfigure_vm`. -/
def reconfFinish (inv : Invoker) (n : String) (pre : List String)
    (newCpu newMemGB : Option Int) : HandlerResult :=
  let cfgCpu := optTruthy newCpu
  let cfgMem := (optTruthy newMemGB).map (fun v => v * 1024)
  let c := Call.reconfigure n cfgCpu cfgMem
  if inv.fails c then
    { out := pre ++ [msgReconfiguring n, msgFailReconf (inv.err c)], calls := [c] }
  else
    let cpuMsgs := match optTruthy newCpu with
      | some v => [msgCpuSet v]
      | none => []
    let memMsgs := match optTruthy newMemGB with
      | some v => [msgMemSet v]
      | none => []
    { out := pre ++ [msgReconfiguring n, msgReconfigured n] ++ cpuMsgs ++ memMsgs,
      calls := [c] }

/-- The memory-change stage of `reconfigure_vm`; `memIdx` is the input index of
the `Change Memory? (Y/N)` answer (3 when no CPU value was read, else 4). -/
def reconfMemStage (inp : Nat → String) (inv : Invoker) (n : String) (pre : List String)
    (newCpu : Option Int) (memIdx : Nat) : HandlerResult :=
  let change_mem := pyUpper (pyStrip (inp memIdx))
  if change_mem = "Y" then
    match pyInt (inp (memIdx + 1)) with
    | none => { out := pre ++ ["Invalid memory size"], calls := [] }
    | some m => reconfFinish inv n pre newCpu (some m)
  else
    reconfFinish inv n pre newCpu none

/-- `reconfigure_vm(si)`: inputs are name filter (0), Y/N confirmation (1),
change-CPU answer (2), optional CPU count (3), change-memory answer (3 or 4),
optional memory GB (next). -/
def reconfigure_vm (vms : List VM) (inp : Nat → String) (inv : Invoker) : HandlerResult :=
  let header := handlerHeader "=== Reconfigure a VM ===" vms
  let vm_name := pyStrip (inp 0)
  match matchTargets vms vm_name with
  | [] => { out := header ++ [msgNoVmFound vm_name], calls := [] }
  | vm :: _ =>
    let n := vm.name
    if vm.powerState ≠ PowerState.poweredOff then
      { out := header ++ [msgMustBeOffReconf n, "Please power off the VM first."], calls := [] }
    else
      let confirm := pyUpper (pyStrip (inp 1))
      if confirm ≠ "Y" then
        { out := header ++ ["Cancelled."], calls := [] }
      else
        let change_cpu := pyUpper (pyStrip (inp 2))
        if change_cpu = "Y" then
          match pyInt (inp 3) with
          | none => { out := header ++ ["Invalid CPU count"], calls := [] }
          | some cpu => reconfMemStage inp inv n header (some cpu) 4
        else
          reconfMemStage inp inv n header none 3

/-- `f"Renaming {vm.name} to {new_name}..."`. -/
def msgRenaming (old new : String) : String := "Renaming " ++ old ++ " to " ++ new ++ "..."

/-- `f"✓ VM renamed successfully to '{new_name}'!"`. -/
def msgRenamed (new : String) : String :=
  "✓ VM renamed successfully to " ++ quoted new ++ "!"

/-- `f"Failed to rename VM: {e}"` — note: no VM name in this message. -/
def msgFailRename (e : String) : String := "Failed to rename VM: " ++ e

/-- `rename_vm(si)`: inputs are name filter (0), Y/N confirmation (1), the new
name (2). -/
def rename_vm (vms : List VM) (inp : Nat → String) (inv : Invoker) : HandlerResult :=
  let header := handlerHeader "=== Rename a VM ===" vms
  let vm_name := pyStrip (inp 0)
  match matchTargets vms vm_name with
  | [] => { out := header ++ [msgNoVmFound vm_name], calls := [] }
  | vm :: _ =>
    let n := vm.name
    let confirm := pyUpper (pyStrip (inp 1))
    if confirm ≠ "Y" then
      { out := header ++ ["Cancelled."], calls := [] }
    else
      let new_name := pyStrip (inp 2)
      if new_name = "" then
        { out := header ++ ["Name cannot be empty"], calls := [] }
      else
        let c := Call.rename n new_name
        let tailMsg := if inv.fails c then msgFailRename (inv.err c) else msgRenamed new_name
        { out := header ++ [msgRenaming n new_name, tailMsg], calls := [c] }

/-- Outcome of reading one choice at a menu prompt. -/
inductive MenuOutcome
  | crash
  | exitLoop
  | dispatch (k : Int)
  | invalid
deriving DecidableEq, Repr

/-- One iteration of the top-level menu on input `s`:
`option = int(input(...))` — an unparsable string raises `ValueError`
uncaught (`crash`); 1–4 dispatch; 0 breaks the loop; anything else prints
`Invalid option. Please try again.` and loops. -/
def menuStep (s : String) : MenuOutcome :=
  match pyInt s with
  | none => MenuOutcome.crash
  | some n =>
    if n = 1 then MenuOutcome.dispatch 1
    else if n = 2 then MenuOutcome.dispatch 2
    else if n = 3 then MenuOutcome.dispatch 3
    else if n = 4 then MenuOutcome.dispatch 4
    else if n = 0 then MenuOutcome.exitLoop
    else MenuOutcome.invalid

/-- One iteration of the VM Actions submenu on input `s`:
`vmoption = int(input(...))` — an unparsable string raises `ValueError`
uncaught (`crash`); `0` leaves the submenu; 1–6 dispatch a handler; any other
integer just re-displays the submenu. -/
def vmMenuStep (s : String) : MenuOutcome :=
  match pyInt s with
  | none => MenuOutcome.crash
  | some n =>
    if n = 0 then MenuOutcome.exitLoop
    else if 1 ≤ n ∧ n ≤ 6 then MenuOutcome.dispatch n
    else MenuOutcome.invalid

/-- An invoker on which every call succeeds. -/
def invokerOk : Invoker := ⟨fun _ => false, fun _ => ""⟩

/-- An invoker on which every call raises, with empty exception text. -/
def invokerFail : Invoker := ⟨fun _ => true, fun _ => ""⟩

/-- A finite input script as an input stream; exhausted entries read as `""`. -/
def inpOf (l : List String) : Nat → String := fun k => l.getD k ""

/-- A powered-off VM used as a concrete test fixture. -/
def vmOff : VM := ⟨"db01", PowerState.poweredOff⟩

/-- A powered-on VM used as a concrete test fixture. -/
def vmOn : VM := ⟨"db01", PowerState.poweredOn⟩

/-- The power-on loop calls `PowerOn` exactly on the targets not already on. -/
theorem powerOnLoop_calls_eq (inv : Invoker) (ts : List VM) :
    (powerOnLoop inv ts).2 =
      (ts.filter (fun w => w.powerState ≠ PowerState.poweredOn)).map
        (fun w => Call.powerOn w.name) := by
  induction ts with
  | nil => rfl
  | cons w rest ih =>
    by_cases h : w.powerState = PowerState.poweredOn <;>
      simp [powerOnLoop, h, ih]

/-- The power-off loop calls `PowerOff` exactly on the targets not already off. -/
theorem powerOffLoop_calls_eq (inv : Invoker) (ts : List VM) :
    (powerOffLoop inv ts).2 =
      (ts.filter (fun w => w.powerState ≠ PowerState.poweredOff)).map
        (fun w => Call.powerOff w.name) := by
  induction ts with
  | nil => rfl
  | cons w rest ih =>
    by_cases h : w.powerState = PowerState.poweredOff <;>
      simp [powerOffLoop, h, ih]

/-- Every already-on target gets the skip message from the power-on loop. -/
theorem powerOnLoop_skip_msg (inv : Invoker) (ts : List VM) (vm : VM) (hm : vm ∈ ts)
    (hs : vm.powerState = PowerState.poweredOn) :
    msgSkipOn vm.name ∈ (powerOnLoop inv ts).1 := by
  induction ts with
  | nil => cases hm
  | cons w rest ih =>
    rcases List.mem_cons.mp hm with h | h
    · subst h
      simp [powerOnLoop, hs]
    · by_cases hw : w.powerState = PowerState.poweredOn <;>
        simp [powerOnLoop, hw, ih h]

/-- Every already-off target gets the skip message from the power-off loop. -/
theorem powerOffLoop_skip_msg (inv : Invoker) (ts : List VM) (vm : VM) (hm : vm ∈ ts)
    (hs : vm.powerState = PowerState.poweredOff) :
    msgSkipOff vm.name ∈ (powerOffLoop inv ts).1 := by
  induction ts with
  | nil => cases hm
  | cons w rest ih =>
    rcases List.mem_cons.mp hm with h | h
    · subst h
      simp [powerOffLoop, hs]
    · by_cases hw : w.powerState = PowerState.poweredOff <;>
        simp [powerOffLoop, hw, ih h]

/-- A failing power-on of a not-on target is reported with the VM name. -/
theorem powerOnLoop_fail_msg (inv : Invoker) (ts : List VM) (vm : VM) (hm : vm ∈ ts)
    (hs : vm.powerState ≠ PowerState.poweredOn)
    (hf : inv.fails (Call.powerOn vm.name) = true) :
    msgFailPowerOn vm.name (inv.err (Call.powerOn vm.name)) ∈ (powerOnLoop inv ts).1 := by
  induction ts with
  | nil => cases hm
  | cons w rest ih =>
    rcases List.mem_cons.mp hm with h | h
    · subst h
      simp [powerOnLoop, hs, hf]
    · by_cases hw : w.powerState = PowerState.poweredOn <;>
        simp [powerOnLoop, hw, ih h]

/-- A failing power-off of a not-off target is reported with the VM name. -/
theorem powerOffLoop_fail_msg (inv : Invoker) (ts : List VM) (vm : VM) (hm : vm ∈ ts)
    (hs : vm.powerState ≠ PowerState.poweredOff)
    (hf : inv.fails (Call.powerOff vm.name) = true) :
    msgFailPowerOff vm.name (inv.err (Call.powerOff vm.name)) ∈ (powerOffLoop inv ts).1 := by
  induction ts with
  | nil => cases hm
  | cons w rest ih =>
    rcases List.mem_cons.mp hm with h | h
    · subst h
      simp [powerOffLoop, hs, hf]
    · by_cases hw : w.powerState = PowerState.poweredOff <;>
        simp [powerOffLoop, hw, ih h]

/-- C1: for every operation kind (PowerOn-ALL, PowerOff-ALL, Snapshot, Delete,
Reconfigure, Rename), whenever the run reaches the primary confirmation prompt
and the answer, after strip and uppercase, is not the accepting token (`Y`, or
`YES` for Delete), the handler makes no Task Invoker call and prints the
cancellation message. -/
theorem c1_decline_primary_no_invoker_calls :
    (∀ vms inp inv, pyStrip (inp 0) = "" → pyUpper (pyStrip (inp 1)) ≠ "Y" →
      (power_on_vm vms inp inv).calls = [] ∧
        "Cancelled." ∈ (power_on_vm vms inp inv).out)
    ∧
    (∀ vms inp inv, pyStrip (inp 0) = "" → pyUpper (pyStrip (inp 1)) ≠ "Y" →
      (power_off_vm vms inp inv).calls = [] ∧
        "Cancelled." ∈ (power_off_vm vms inp inv).out)
    ∧
    (∀ vms inp inv now vm rest, matchTargets vms (pyStrip (inp 0)) = vm :: rest →
      pyUpper (pyStrip (inp 1)) ≠ "Y" →
      (create_snapshot vms inp inv now).calls = [] ∧
        "Cancelled." ∈ (create_snapshot vms inp inv now).out)
    ∧
    (∀ vms inp inv vm rest, matchTargets vms (pyStrip (inp 0)) = vm :: rest →
      pyUpper (pyStrip (inp 1)) ≠ "YES" →
      (delete_vm vms inp inv).calls = [] ∧
        "Cancelled." ∈ (delete_vm vms inp inv).out)
    ∧
    (∀ vms inp inv vm rest, matchTargets vms (pyStrip (inp 0)) = vm :: rest →
      vm.powerState = PowerState.poweredOff →
      pyUpper (pyStrip (inp 1)) ≠ "Y" →
      (reconfigure_vm vms inp inv).calls = [] ∧
        "Cancelled." ∈ (reconfigure_vm vms inp inv).out)
    ∧
    (∀ vms inp inv vm rest, matchTargets vms (pyStrip (inp 0)) = vm :: rest →
      pyUpper (pyStrip (inp 1)) ≠ "Y" →
      (rename_vm vms inp inv).calls = [] ∧
        "Cancelled." ∈ (rename_vm vms inp inv).out) := by
  refine ⟨?_, ?_, ?_, ?_, ?_, ?_⟩
  · intro vms inp inv h0 h1
    simp [power_on_vm, h0, h1]
  · intro vms inp inv h0 h1
    simp [power_off_vm, h0, h1]
  · intro vms inp inv now vm rest h h1
    simp [create_snapshot, h, h1]
  · intro vms inp inv vm rest h h1
    simp [delete_vm, h, h1]
  · intro vms inp inv vm rest h hp h1
    simp [reconfigure_vm, h, hp, h1]
  · intro vms inp inv vm rest h h1
    simp [rename_vm, h, h1]

/-- Witness for C1 at concrete inputs: declining every primary confirmation
(`N`, `no`) yields zero calls and a `Cancelled.` line for all six handlers. -/
theorem c1_decline_primary_no_invoker_calls_witness :
    ((power_on_vm [vmOff] (inpOf ["", "N"]) invokerOk).calls = [] ∧
      "Cancelled." ∈ (power_on_vm [vmOff] (inpOf ["", "N"]) invokerOk).out)
    ∧
    ((power_off_vm [vmOn] (inpOf ["", "n"]) invokerOk).calls = [] ∧
      "Cancelled." ∈ (power_off_vm [vmOn] (inpOf ["", "n"]) invokerOk).out)
    ∧
    ((create_snapshot [vmOn] (inpOf ["db", "N"]) invokerOk "TS").calls = [] ∧
      "Cancelled." ∈ (create_snapshot [vmOn] (inpOf ["db", "N"]) invokerOk "TS").out)
    ∧
    ((delete_vm [vmOff] (inpOf ["db", "no"]) invokerOk).calls = [] ∧
      "Cancelled." ∈ (delete_vm [vmOff] (inpOf ["db", "no"]) invokerOk).out)
    ∧
    ((reconfigure_vm [vmOff] (inpOf ["db", "N"]) invokerOk).calls = [] ∧
      "Cancelled." ∈ (reconfigure_vm [vmOff] (inpOf ["db", "N"]) invokerOk).out)
    ∧
    ((rename_vm [vmOff] (inpOf ["db", "N"]) invokerOk).calls = [] ∧
      "Cancelled." ∈ (rename_vm [vmOff] (inpOf ["db", "N"]) invokerOk).out) :=
  ⟨c1_decline_primary_no_invoker_calls.1 [vmOff] (inpOf ["", "N"]) invokerOk
      (by decide) (by decide),
   c1_decline_primary_no_invoker_calls.2.1 [vmOn] (inpOf ["", "n"]) invokerOk
      (by decide) (by decide),
   c1_decline_primary_no_invoker_calls.2.2.1 [vmOn] (inpOf ["db", "N"]) invokerOk "TS"
      vmOn [] (by decide) (by decide),
   c1_decline_primary_no_invoker_calls.2.2.2.1 [vmOff] (inpOf ["db", "no"]) invokerOk
      vmOff [] (by decide) (by decide),
   c1_decline_primary_no_invoker_calls.2.2.2.2.1 [vmOff] (inpOf ["db", "N"]) invokerOk
      vmOff [] (by decide) (by decide) (by decide),
   c1_decline_primary_no_invoker_calls.2.2.2.2.2 [vmOff] (inpOf ["db", "N"]) invokerOk
      vmOff [] (by decide) (by decide)⟩

/-- C2 counterexample: the second Delete confirmation strips the typed string
before comparing (`input(...).strip() != vm.name`). The typed string
`" db01 "` differs from the VM name `"db01"`, yet deletion proceeds and a
`Destroy_Task` call is made — so it is not true that every typed string
differing from the name is rejected with zero Destroy calls. -/
theorem c2_counterexample :
    (" db01 " ≠ "db01") ∧
    (delete_vm [vmOff] (inpOf ["db01", "YES", " db01 "]) invokerOk).calls =
      [Call.destroy "db01"] := by
  constructor
  · decide
  · decide

/-- C2 (amended): the first Delete acknowledgment accepts any input whose
stripped uppercase form equals `YES` (so `yes`, `Yes`, `YES` are accepted),
while the second confirmation compares the stripped typed string to the
target's current name case-sensitively: whenever the stripped typed string
differs from the name (including by case only), deletion is cancelled with
the name-mismatch message and zero Task Invoker calls; when it matches
exactly and the target is powered off, exactly the `Destroy_Task` call is
made. -/
theorem c2_delete_confirmation_matching :
    (∀ vms inp inv vm rest, matchTargets vms (pyStrip (inp 0)) = vm :: rest →
      pyUpper (pyStrip (inp 1)) = "YES" →
      pyStrip (inp 2) ≠ vm.name →
      (delete_vm vms inp inv).calls = [] ∧
        "VM name does not match. Deletion cancelled." ∈ (delete_vm vms inp inv).out)
    ∧
    (∀ vms inp inv vm rest, matchTargets vms (pyStrip (inp 0)) = vm :: rest →
      pyUpper (pyStrip (inp 1)) = "YES" →
      pyStrip (inp 2) = vm.name →
      vm.powerState = PowerState.poweredOff →
      (delete_vm vms inp inv).calls = [Call.destroy vm.name]) := by
  constructor
  · intro vms inp inv vm rest h h1 h2
    simp [delete_vm, h, h1, h2]
  · intro vms inp inv vm rest h h1 h2 hp
    simp [delete_vm, deleteFinal, h, h1, h2, hp]

/-- Witness for C2 at concrete inputs: lowercase `yes` passes the first
acknowledgment, a case-mismatched retyped name (`DB01` for `db01`) cancels
with zero calls, and the acknowledgment `Yes` plus exact retyped name on a
powered-off target yields exactly one Destroy call. -/
theorem c2_delete_confirmation_matching_witness :
    ((delete_vm [vmOff] (inpOf ["db01", "yes", "DB01"]) invokerOk).calls = [] ∧
      "VM name does not match. Deletion cancelled." ∈
        (delete_vm [vmOff] (inpOf ["db01", "yes", "DB01"]) invokerOk).out)
    ∧
    (delete_vm [vmOff] (inpOf ["db01", "Yes", "db01"]) invokerOk).calls =
      [Call.destroy "db01"] :=
  ⟨c2_delete_confirmation_matching.1 [vmOff] (inpOf ["db01", "yes", "DB01"]) invokerOk
      vmOff [] (by decide) (by decide) (by decide),
   c2_delete_confirmation_matching.2 [vmOff] (inpOf ["db01", "Yes", "db01"]) invokerOk
      vmOff [] (by decide) (by decide) (by decide) (by decide)⟩

/-- C3: in the Delete flow, after both confirmations succeed on a target that
is not powered off, the nested power-off confirmation gates deletion:
declining it (anything other than `Y` after strip and uppercase) aborts with
no Task Invoker call at all, and if it is accepted but the nested `PowerOff`
call raises, the handler returns after that single `PowerOff` call without
ever calling `Destroy_Task`. -/
theorem c3_delete_nested_power_off_gate :
    ∀ vms inp inv vm rest, matchTargets vms (pyStrip (inp 0)) = vm :: rest →
      pyUpper (pyStrip (inp 1)) = "YES" →
      pyStrip (inp 2) = vm.name →
      vm.powerState ≠ PowerState.poweredOff →
      ((pyUpper (pyStrip (inp 3)) ≠ "Y" →
          (delete_vm vms inp inv).calls = [] ∧
          "Deletion cancelled." ∈ (delete_vm vms inp inv).out)
       ∧
       (pyUpper (pyStrip (inp 3)) = "Y" →
          inv.fails (Call.powerOff vm.name) = true →
          (delete_vm vms inp inv).calls = [Call.powerOff vm.name] ∧
          Call.destroy vm.name ∉ (delete_vm vms inp inv).calls)) := by
  intro vms inp inv vm rest h h1 h2 hp
  constructor
  · intro h3
    simp [delete_vm, h, h1, h2, hp, h3]
  · intro h3 hf
    simp [delete_vm, h, h1, h2, hp, h3, hf]

/-- Witness for C3 at concrete inputs: on a powered-on target, answering `n`
to the nested power-off prompt cancels with zero calls, and answering `Y`
when the power-off raises leaves exactly the failed PowerOff call and no
Destroy call. -/
theorem c3_delete_nested_power_off_gate_witness :
    ((delete_vm [vmOn] (inpOf ["db01", "YES", "db01", "n"]) invokerOk).calls = [] ∧
      "Deletion cancelled." ∈
        (delete_vm [vmOn] (inpOf ["db01", "YES", "db01", "n"]) invokerOk).out)
    ∧
    ((delete_vm [vmOn] (inpOf ["db01", "YES", "db01", "Y"]) invokerFail).calls =
        [Call.powerOff "db01"] ∧
      Call.destroy "db01" ∉
        (delete_vm [vmOn] (inpOf ["db01", "YES", "db01", "Y"]) invokerFail).calls) :=
  ⟨(c3_delete_nested_power_off_gate [vmOn] (inpOf ["db01", "YES", "db01", "n"]) invokerOk
      vmOn [] (by decide) (by decide) (by decide) (by decide)).1 (by decide),
   (c3_delete_nested_power_off_gate [vmOn] (inpOf ["db01", "YES", "db01", "Y"]) invokerFail
      vmOn [] (by decide) (by decide) (by decide) (by decide)).2 (by decide) (by decide)⟩

/-- C4: for every target VM whose current power state is not `poweredOff`, the
Reconfigure handler prints the blocking precondition-failure message and
returns with zero Task Invoker calls; moreover its whole result depends only
on input 0 (the name filter), i.e. it returns before issuing any further
prompt (Y/N confirmation, CPU/memory values). -/
theorem c4_reconfigure_power_precondition :
    ∀ vms inp inv vm rest, matchTargets vms (pyStrip (inp 0)) = vm :: rest →
      vm.powerState ≠ PowerState.poweredOff →
      (reconfigure_vm vms inp inv).calls = [] ∧
      msgMustBeOffReconf vm.name ∈ (reconfigure_vm vms inp inv).out ∧
      (∀ inp2 : Nat → String, inp2 0 = inp 0 →
        reconfigure_vm vms inp2 inv = reconfigure_vm vms inp inv) := by
  intro vms inp inv vm rest h hp
  refine ⟨?_, ?_, ?_⟩
  · simp [reconfigure_vm, h, hp]
  · simp [reconfigure_vm, h, hp]
  · intro inp2 hi
    have h2 : matchTargets vms (pyStrip (inp2 0)) = vm :: rest := by
      rw [hi]; exact h
    simp [reconfigure_vm, h, h2, hp, hi]

/-- Witness for C4 at a concrete input: a powered-on target is refused with
zero calls, and the result is unchanged under a different input stream that
agrees on the name filter. -/
theorem c4_reconfigure_power_precondition_witness :
    (reconfigure_vm [vmOn] (inpOf ["db01", "Y", "Y", "4"]) invokerOk).calls = [] ∧
    msgMustBeOffReconf "db01" ∈
      (reconfigure_vm [vmOn] (inpOf ["db01", "Y", "Y", "4"]) invokerOk).out ∧
    (∀ inp2 : Nat → String, inp2 0 = inpOf ["db01", "Y", "Y", "4"] 0 →
      reconfigure_vm [vmOn] inp2 invokerOk =
        reconfigure_vm [vmOn] (inpOf ["db01", "Y", "Y", "4"]) invokerOk) :=
  c4_reconfigure_power_precondition [vmOn] (inpOf ["db01", "Y", "Y", "4"]) invokerOk
    vmOn [] (by decide) (by decide)

/-- C5: in the Reconfigure flow (target powered off, main confirmation
accepted), a CPU or memory entry that does not parse as an integer aborts the
whole operation with the invalid-value message and zero Task Invoker calls —
no partial reconfiguration. Covered cases: invalid CPU entry; invalid memory
entry with the CPU question declined; invalid memory entry after a valid CPU
entry. -/
theorem c5_reconfigure_invalid_number_aborts :
    (∀ vms inp inv vm rest, matchTargets vms (pyStrip (inp 0)) = vm :: rest →
      vm.powerState = PowerState.poweredOff →
      pyUpper (pyStrip (inp 1)) = "Y" →
      pyUpper (pyStrip (inp 2)) = "Y" →
      pyInt (inp 3) = none →
      (reconfigure_vm vms inp inv).calls = [] ∧
        "Invalid CPU count" ∈ (reconfigure_vm vms inp inv).out)
    ∧
    (∀ vms inp inv vm rest, matchTargets vms (pyStrip (inp 0)) = vm :: rest →
      vm.powerState = PowerState.poweredOff →
      pyUpper (pyStrip (inp 1)) = "Y" →
      pyUpper (pyStrip (inp 2)) ≠ "Y" →
      pyUpper (pyStrip (inp 3)) = "Y" →
      pyInt (inp 4) = none →
      (reconfigure_vm vms inp inv).calls = [] ∧
        "Invalid memory size" ∈ (reconfigure_vm vms inp inv).out)
    ∧
    (∀ vms inp inv vm rest cpu, matchTargets vms (pyStrip (inp 0)) = vm :: rest →
      vm.powerState = PowerState.poweredOff →
      pyUpper (pyStrip (inp 1)) = "Y" →
      pyUpper (pyStrip (inp 2)) = "Y" →
      pyInt (inp 3) = some cpu →
      pyUpper (pyStrip (inp 4)) = "Y" →
      pyInt (inp 5) = none →
      (reconfigure_vm vms inp inv).calls = [] ∧
        "Invalid memory size" ∈ (reconfigure_vm vms inp inv).out) := by
  refine ⟨?_, ?_, ?_⟩
  · intro vms inp inv vm rest h hp h1 h2 h3
    simp [reconfigure_vm, h, hp, h1, h2, h3]
  · intro vms inp inv vm rest h hp h1 h2 h3 h4
    simp [reconfigure_vm, reconfMemStage, h, hp, h1, h2, h3, h4]
  · intro vms inp inv vm rest cpu h hp h1 h2 h3 h4 h5
    simp [reconfigure_vm, reconfMemStage, h, hp, h1, h2, h3, h4, h5]

/-- Witness for C5 at concrete inputs: the CPU entry `x`, the memory entry
`zz` (CPU question declined), and the memory entry `8GB` after a valid CPU
entry `4` each abort with zero calls. -/
theorem c5_reconfigure_invalid_number_aborts_witness :
    ((reconfigure_vm [vmOff] (inpOf ["db01", "Y", "Y", "x"]) invokerOk).calls = [] ∧
      "Invalid CPU count" ∈
        (reconfigure_vm [vmOff] (inpOf ["db01", "Y", "Y", "x"]) invokerOk).out)
    ∧
    ((reconfigure_vm [vmOff] (inpOf ["db01", "Y", "N", "Y", "zz"]) invokerOk).calls = [] ∧
      "Invalid memory size" ∈
        (reconfigure_vm [vmOff] (inpOf ["db01", "Y", "N", "Y", "zz"]) invokerOk).out)
    ∧
    ((reconfigure_vm [vmOff] (inpOf ["db01", "Y", "Y", "4", "Y", "8GB"]) invokerOk).calls = [] ∧
      "Invalid memory size" ∈
        (reconfigure_vm [vmOff] (inpOf ["db01", "Y", "Y", "4", "Y", "8GB"]) invokerOk).out) :=
  ⟨c5_reconfigure_invalid_number_aborts.1 [vmOff] (inpOf ["db01", "Y", "Y", "x"]) invokerOk
      vmOff [] (by decide) (by decide) (by decide) (by decide) (by decide),
   c5_reconfigure_invalid_number_aborts.2.1 [vmOff] (inpOf ["db01", "Y", "N", "Y", "zz"])
      invokerOk vmOff [] (by decide) (by decide) (by decide) (by decide) (by decide)
      (by decide),
   c5_reconfigure_invalid_number_aborts.2.2 [vmOff] (inpOf ["db01", "Y", "Y", "4", "Y", "8GB"])
      invokerOk vmOff [] 4 (by decide) (by decide) (by decide) (by decide) (by decide)
      (by decide) (by decide)⟩

/-- C6: for every target VM already in the desired end state, the power
handlers print the already-on/off skip message and make no Task Invoker call
for that VM; the check is applied per VM inside the bulk (ALL) loop and in
single-target mode alike. In each mode the calls are exactly the power calls
for the targets not already in the desired state. -/
theorem c6_skip_already_in_desired_state :
    (∀ vms inp inv vm rest, pyStrip (inp 0) ≠ "" →
      matchTargets vms (pyStrip (inp 0)) = vm :: rest →
      (power_on_vm vms inp inv).calls =
        ((vm :: rest).filter (fun w => w.powerState ≠ PowerState.poweredOn)).map
          (fun w => Call.powerOn w.name) ∧
      ∀ w ∈ vm :: rest, w.powerState = PowerState.poweredOn →
        msgSkipOn w.name ∈ (power_on_vm vms inp inv).out)
    ∧
    (∀ vms inp inv, pyStrip (inp 0) = "" → pyUpper (pyStrip (inp 1)) = "Y" →
      (power_on_vm vms inp inv).calls =
        (vms.filter (fun w => w.powerState ≠ PowerState.poweredOn)).map
          (fun w => Call.powerOn w.name) ∧
      ∀ w ∈ vms, w.powerState = PowerState.poweredOn →
        msgSkipOn w.name ∈ (power_on_vm vms inp inv).out)
    ∧
    (∀ vms inp inv vm rest, pyStrip (inp 0) ≠ "" →
      matchTargets vms (pyStrip (inp 0)) = vm :: rest →
      (power_off_vm vms inp inv).calls =
        ((vm :: rest).filter (fun w => w.powerState ≠ PowerState.poweredOff)).map
          (fun w => Call.powerOff w.name) ∧
      ∀ w ∈ vm :: rest, w.powerState = PowerState.poweredOff →
        msgSkipOff w.name ∈ (power_off_vm vms inp inv).out)
    ∧
    (∀ vms inp inv, pyStrip (inp 0) = "" → pyUpper (pyStrip (inp 1)) = "Y" →
      (power_off_vm vms inp inv).calls =
        (vms.filter (fun w => w.powerState ≠ PowerState.poweredOff)).map
          (fun w => Call.powerOff w.name) ∧
      ∀ w ∈ vms, w.powerState = PowerState.poweredOff →
        msgSkipOff w.name ∈ (power_off_vm vms inp inv).out) := by
  refine ⟨?_, ?_, ?_, ?_⟩
  · intro vms inp inv vm rest h0 h
    constructor
    · simp [power_on_vm, h0, h, powerOnLoop_calls_eq]
    · intro w hw hs
      simp [power_on_vm, h0, h, powerOnLoop_skip_msg inv (vm :: rest) w hw hs]
  · intro vms inp inv h0 h1
    constructor
    · simp [power_on_vm, h0, h1, powerOnLoop_calls_eq]
    · intro w hw hs
      simp [power_on_vm, h0, h1, powerOnLoop_skip_msg inv vms w hw hs]
  · intro vms inp inv vm rest h0 h
    constructor
    · simp [power_off_vm, h0, h, powerOffLoop_calls_eq]
    · intro w hw hs
      simp [power_off_vm, h0, h, powerOffLoop_skip_msg inv (vm :: rest) w hw hs]
  · intro vms inp inv h0 h1
    constructor
    · simp [power_off_vm, h0, h1, powerOffLoop_calls_eq]
    · intro w hw hs
      simp [power_off_vm, h0, h1, powerOffLoop_skip_msg inv vms w hw hs]

/-- Witness for C6 at concrete inputs: with one already-on and one off VM,
single-target mode and bulk mode each call PowerOn only for the off VM and
print the skip message for the on VM; dually for PowerOff. -/
theorem c6_skip_already_in_desired_state_witness :
    ((power_on_vm [⟨"web-a", PowerState.poweredOn⟩, ⟨"web-b", PowerState.poweredOff⟩]
        (inpOf ["web"]) invokerOk).calls = [Call.powerOn "web-b"] ∧
      ∀ w ∈ [⟨"web-a", PowerState.poweredOn⟩, (⟨"web-b", PowerState.poweredOff⟩ : VM)],
        w.powerState = PowerState.poweredOn →
        msgSkipOn w.name ∈
          (power_on_vm [⟨"web-a", PowerState.poweredOn⟩, ⟨"web-b", PowerState.poweredOff⟩]
            (inpOf ["web"]) invokerOk).out)
    ∧
    ((power_on_vm [vmOn] (inpOf ["", "Y"]) invokerOk).calls = [] ∧
      ∀ w ∈ [vmOn], w.powerState = PowerState.poweredOn →
        msgSkipOn w.name ∈ (power_on_vm [vmOn] (inpOf ["", "Y"]) invokerOk).out)
    ∧
    ((power_off_vm [⟨"web-a", PowerState.poweredOn⟩, ⟨"web-b", PowerState.poweredOff⟩]
        (inpOf ["web"]) invokerOk).calls = [Call.powerOff "web-a"] ∧
      ∀ w ∈ [⟨"web-a", PowerState.poweredOn⟩, (⟨"web-b", PowerState.poweredOff⟩ : VM)],
        w.powerState = PowerState.poweredOff →
        msgSkipOff w.name ∈
          (power_off_vm [⟨"web-a", PowerState.poweredOn⟩, ⟨"web-b", PowerState.poweredOff⟩]
            (inpOf ["web"]) invokerOk).out)
    ∧
    ((power_off_vm [vmOff] (inpOf ["", "Y"]) invokerOk).calls = [] ∧
      ∀ w ∈ [vmOff], w.powerState = PowerState.poweredOff →
        msgSkipOff w.name ∈ (power_off_vm [vmOff] (inpOf ["", "Y"]) invokerOk).out) :=
  ⟨c6_skip_already_in_desired_state.1
      [⟨"web-a", PowerState.poweredOn⟩, ⟨"web-b", PowerState.poweredOff⟩]
      (inpOf ["web"]) invokerOk ⟨"web-a", PowerState.poweredOn⟩
      [⟨"web-b", PowerState.poweredOff⟩] (by decide) (by decide),
   c6_skip_already_in_desired_state.2.1 [vmOn] (inpOf ["", "Y"]) invokerOk
      (by decide) (by decide),
   c6_skip_already_in_desired_state.2.2.1
      [⟨"web-a", PowerState.poweredOn⟩, ⟨"web-b", PowerState.poweredOff⟩]
      (inpOf ["web"]) invokerOk ⟨"web-a", PowerState.poweredOn⟩
      [⟨"web-b", PowerState.poweredOff⟩] (by decide) (by decide),
   c6_skip_already_in_desired_state.2.2.2 [vmOff] (inpOf ["", "Y"]) invokerOk
      (by decide) (by decide)⟩

/-- C7: in the Rename flow, whenever the new name entered strips to the empty
string, the handler prints `Name cannot be empty` and returns with zero Task
Invoker calls — the rejection happens before any remote call is attempted. -/
theorem c7_rename_empty_name_rejected :
    ∀ vms inp inv vm rest, matchTargets vms (pyStrip (inp 0)) = vm :: rest →
      pyUpper (pyStrip (inp 1)) = "Y" →
      pyStrip (inp 2) = "" →
      (rename_vm vms inp inv).calls = [] ∧
        "Name cannot be empty" ∈ (rename_vm vms inp inv).out := by
  intro vms inp inv vm rest h h1 h2
  simp [rename_vm, h, h1, h2]

/-- Witness for C7 at a concrete input: renaming `db01` with the whitespace
new name `"  "` is rejected with zero calls. -/
theorem c7_rename_empty_name_rejected_witness :
    (rename_vm [vmOn] (inpOf ["db01", "Y", "  "]) invokerOk).calls = [] ∧
    "Name cannot be empty" ∈ (rename_vm [vmOn] (inpOf ["db01", "Y", "  "]) invokerOk).out :=
  c7_rename_empty_name_rejected [vmOn] (inpOf ["db01", "Y", "  "]) invokerOk
    vmOn [] (by decide) (by decide) (by decide)

/-- `deleteFinal` always records exactly one trailing Destroy call. -/
theorem deleteFinal_calls_eq (inv : Invoker) (n : String) (pre : List String)
    (cs : List Call) : (deleteFinal inv n pre cs).calls = cs ++ [Call.destroy n] := by
  by_cases h : inv.fails (Call.destroy n) <;> simp [deleteFinal, h]

/-- `reconfFinish` always records exactly one Reconfigure call on `n`. -/
theorem reconfFinish_calls_eq (inv : Invoker) (n : String) (pre : List String)
    (a b : Option Int) :
    (reconfFinish inv n pre a b).calls =
      [Call.reconfigure n (optTruthy a) ((optTruthy b).map (fun v => v * 1024))] := by
  by_cases h : inv.fails (Call.reconfigure n (optTruthy a) ((optTruthy b).map (fun v => v * 1024))) <;>
    simp [reconfFinish, h]

/-- Every call recorded by the memory stage of reconfigure targets `n`. -/
theorem reconfMemStage_calls_name (inp : Nat → String) (inv : Invoker) (n : String)
    (pre : List String) (cpu : Option Int) (idx : Nat) :
    ∀ c ∈ (reconfMemStage inp inv n pre cpu idx).calls, c.vmNameOf = n := by
  intro c hc
  by_cases hm : pyUpper (pyStrip (inp idx)) = "Y"
  · simp only [reconfMemStage, hm, if_pos] at hc
    rcases hpi : pyInt (inp (idx + 1)) with _ | m <;> rw [hpi] at hc
    · simp at hc
    · rw [reconfFinish_calls_eq] at hc
      simp at hc
      simp [hc, Call.vmNameOf]
  · simp only [reconfMemStage, hm, if_neg, not_false_iff] at hc
    rw [reconfFinish_calls_eq] at hc
    simp at hc
    simp [hc, Call.vmNameOf]

/-- C8 counterexample: a snapshot whose `CreateSnapshot` call raises is
reported only as `Failed to create snapshot: <e>` — the printed failure
message does not contain the target VM's name (`db01` does not occur in it),
refuting the claim that every failure report includes both the operation name
and the target VM's name. -/
theorem c8_counterexample :
    (create_snapshot [vmOn] (inpOf ["db01", "Y", "snap", ""]) invokerFail "TS").out =
      ["=== Take a Snapshot ===", "VMs managed by vCenter:", "  - db01",
        msgCreatingSnap "snap" "db01", msgFailSnap ""] ∧
    (create_snapshot [vmOn] (inpOf ["db01", "Y", "snap", ""]) invokerFail "TS").calls =
      [Call.createSnapshot "db01" "snap" ""] ∧
    pyIn "db01" (msgFailSnap "") = false := by
  refine ⟨by decide, by decide, by decide⟩

/-- C8 (amended): any exception raised by the Task Invoker during a confirmed
operation is caught and the handler returns normally with a failure message
naming the operation; the PowerOn/PowerOff failure messages also include the
target VM's name, while the Snapshot, Delete, Reconfigure and Rename failure
messages name only the operation (not the target). -/
theorem c8_invoker_failures_caught :
    (∀ vms inp inv vm rest w, pyStrip (inp 0) ≠ "" →
      matchTargets vms (pyStrip (inp 0)) = vm :: rest →
      w ∈ vm :: rest → w.powerState ≠ PowerState.poweredOn →
      inv.fails (Call.powerOn w.name) = true →
      msgFailPowerOn w.name (inv.err (Call.powerOn w.name)) ∈ (power_on_vm vms inp inv).out)
    ∧
    (∀ vms inp inv vm rest w, pyStrip (inp 0) ≠ "" →
      matchTargets vms (pyStrip (inp 0)) = vm :: rest →
      w ∈ vm :: rest → w.powerState ≠ PowerState.poweredOff →
      inv.fails (Call.powerOff w.name) = true →
      msgFailPowerOff w.name (inv.err (Call.powerOff w.name)) ∈ (power_off_vm vms inp inv).out)
    ∧
    (∀ vms inp inv now vm rest, matchTargets vms (pyStrip (inp 0)) = vm :: rest →
      pyUpper (pyStrip (inp 1)) = "Y" → pyStrip (inp 2) ≠ "" →
      inv.fails (Call.createSnapshot vm.name (pyStrip (inp 2)) (pyStrip (inp 3))) = true →
      msgFailSnap (inv.err (Call.createSnapshot vm.name (pyStrip (inp 2)) (pyStrip (inp 3))))
          ∈ (create_snapshot vms inp inv now).out ∧
        (create_snapshot vms inp inv now).calls =
          [Call.createSnapshot vm.name (pyStrip (inp 2)) (pyStrip (inp 3))])
    ∧
    (∀ vms inp inv vm rest, matchTargets vms (pyStrip (inp 0)) = vm :: rest →
      pyUpper (pyStrip (inp 1)) = "YES" → pyStrip (inp 2) = vm.name →
      vm.powerState = PowerState.poweredOff →
      inv.fails (Call.destroy vm.name) = true →
      msgFailDelete (inv.err (Call.destroy vm.name)) ∈ (delete_vm vms inp inv).out ∧
        (delete_vm vms inp inv).calls = [Call.destroy vm.name])
    ∧
    (∀ vms inp inv vm rest, matchTargets vms (pyStrip (inp 0)) = vm :: rest →
      vm.powerState = PowerState.poweredOff →
      pyUpper (pyStrip (inp 1)) = "Y" →
      pyUpper (pyStrip (inp 2)) ≠ "Y" →
      pyUpper (pyStrip (inp 3)) ≠ "Y" →
      inv.fails (Call.reconfigure vm.name none none) = true →
      msgFailReconf (inv.err (Call.reconfigure vm.name none none))
          ∈ (reconfigure_vm vms inp inv).out ∧
        (reconfigure_vm vms inp inv).calls = [Call.reconfigure vm.name none none])
    ∧
    (∀ vms inp inv vm rest, matchTargets vms (pyStrip (inp 0)) = vm :: rest →
      pyUpper (pyStrip (inp 1)) = "Y" → pyStrip (inp 2) ≠ "" →
      inv.fails (Call.rename vm.name (pyStrip (inp 2))) = true →
      msgFailRename (inv.err (Call.rename vm.name (pyStrip (inp 2))))
          ∈ (rename_vm vms inp inv).out ∧
        (rename_vm vms inp inv).calls = [Call.rename vm.name (pyStrip (inp 2))]) := by
  refine ⟨?_, ?_, ?_, ?_, ?_, ?_⟩
  · intro vms inp inv vm rest w h0 h hw hs hf
    simp [power_on_vm, h0, h, powerOnLoop_fail_msg inv (vm :: rest) w hw hs hf]
  · intro vms inp inv vm rest w h0 h hw hs hf
    simp [power_off_vm, h0, h, powerOffLoop_fail_msg inv (vm :: rest) w hw hs hf]
  · intro vms inp inv now vm rest h h1 h2 hf
    simp [create_snapshot, h, h1, h2, hf]
  · intro vms inp inv vm rest h h1 h2 hp hf
    simp [delete_vm, deleteFinal, h, h1, h2, hp, hf]
  · intro vms inp inv vm rest h hp h1 h2 h3 hf
    simp [reconfigure_vm, reconfMemStage, reconfFinish, optTruthy, h, hp, h1, h2, h3, hf]
  · intro vms inp inv vm rest h h1 h2 hf
    simp [rename_vm, h, h1, h2, hf]

/-- Witness for C8 at concrete inputs with an invoker on which every call
raises: each of the six handlers catches the exception and prints its
operation-specific failure message, making exactly the recorded call(s). -/
theorem c8_invoker_failures_caught_witness :
    msgFailPowerOn "db01" (invokerFail.err (Call.powerOn "db01")) ∈
      (power_on_vm [vmOff] (inpOf ["db01"]) invokerFail).out
    ∧
    msgFailPowerOff "db01" (invokerFail.err (Call.powerOff "db01")) ∈
      (power_off_vm [vmOn] (inpOf ["db01"]) invokerFail).out
    ∧
    (msgFailSnap (invokerFail.err (Call.createSnapshot "db01" "snap" "d")) ∈
        (create_snapshot [vmOn] (inpOf ["db01", "Y", "snap", "d"]) invokerFail "TS").out ∧
      (create_snapshot [vmOn] (inpOf ["db01", "Y", "snap", "d"]) invokerFail "TS").calls =
        [Call.createSnapshot "db01" "snap" "d"])
    ∧
    (msgFailDelete (invokerFail.err (Call.destroy "db01")) ∈
        (delete_vm [vmOff] (inpOf ["db01", "YES", "db01"]) invokerFail).out ∧
      (delete_vm [vmOff] (inpOf ["db01", "YES", "db01"]) invokerFail).calls =
        [Call.destroy "db01"])
    ∧
    (msgFailReconf (invokerFail.err (Call.reconfigure "db01" none none)) ∈
        (reconfigure_vm [vmOff] (inpOf ["db01", "Y", "N", "N"]) invokerFail).out ∧
      (reconfigure_vm [vmOff] (inpOf ["db01", "Y", "N", "N"]) invokerFail).calls =
        [Call.reconfigure "db01" none none])
    ∧
    (msgFailRename (invokerFail.err (Call.rename "db01" "db02")) ∈
        (rename_vm [vmOff] (inpOf ["db01", "Y", "db02"]) invokerFail).out ∧
      (rename_vm [vmOff] (inpOf ["db01", "Y", "db02"]) invokerFail).calls =
        [Call.rename "db01" "db02"]) :=
  ⟨c8_invoker_failures_caught.1 [vmOff] (inpOf ["db01"]) invokerFail vmOff [] vmOff
      (by decide) (by decide) (by decide) (by decide) (by decide),
   c8_invoker_failures_caught.2.1 [vmOn] (inpOf ["db01"]) invokerFail vmOn [] vmOn
      (by decide) (by decide) (by decide) (by decide) (by decide),
   c8_invoker_failures_caught.2.2.1 [vmOn] (inpOf ["db01", "Y", "snap", "d"]) invokerFail
      "TS" vmOn [] (by decide) (by decide) (by decide) (by decide),
   c8_invoker_failures_caught.2.2.2.1 [vmOff] (inpOf ["db01", "YES", "db01"]) invokerFail
      vmOff [] (by decide) (by decide) (by decide) (by decide) (by decide),
   c8_invoker_failures_caught.2.2.2.2.1 [vmOff] (inpOf ["db01", "Y", "N", "N"]) invokerFail
      vmOff [] (by decide) (by decide) (by decide) (by decide) (by decide) (by decide),
   c8_invoker_failures_caught.2.2.2.2.2 [vmOff] (inpOf ["db01", "Y", "db02"]) invokerFail
      vmOff [] (by decide) (by decide) (by decide) (by decide)⟩

/-- C9 counterexample: both menus read their choice with `int(input(...))`
and no surrounding try/except, so a non-numeric input string raises an
uncaught `ValueError` and terminates the process — the menu loop does not
handle every input string without crashing. -/
theorem c9_counterexample :
    menuStep "x" = MenuOutcome.crash ∧ vmMenuStep "x" = MenuOutcome.crash := by
  exact ⟨by decide, by decide⟩

/-- C9 (amended): for every input string that parses as an integer, neither
menu crashes: an invalid integer choice re-displays and re-prompts, and the
loop is left exactly by the explicit exit selection 0; an input that does not
parse as an integer raises an uncaught `ValueError` and terminates the
process. -/
theorem c9_integer_menu_choices_handled :
    ∀ s n, pyInt s = some n →
      (menuStep s ≠ MenuOutcome.crash ∧
        (menuStep s = MenuOutcome.exitLoop ↔ n = 0) ∧
        (¬(n = 0 ∨ n = 1 ∨ n = 2 ∨ n = 3 ∨ n = 4) → menuStep s = MenuOutcome.invalid))
      ∧
      (vmMenuStep s ≠ MenuOutcome.crash ∧
        (vmMenuStep s = MenuOutcome.exitLoop ↔ n = 0) ∧
        (¬(n = 0 ∨ (1 ≤ n ∧ n ≤ 6)) → vmMenuStep s = MenuOutcome.invalid)) := by
  intro s n h
  refine ⟨⟨?_, ?_, ?_⟩, ⟨?_, ?_, ?_⟩⟩
  · simp only [menuStep, h]
    split_ifs <;> simp
  · simp only [menuStep, h]
    split_ifs <;> simp_all
  · intro hn
    simp only [menuStep, h]
    split_ifs <;> simp_all
  · simp only [vmMenuStep, h]
    split_ifs <;> simp
  · simp only [vmMenuStep, h]
    split_ifs <;> simp_all
  · intro hn
    simp only [vmMenuStep, h]
    split_ifs <;> simp_all

/-- Witness for C9 at a concrete input: the integer input `7` is an invalid
choice at both menus and is re-prompted, not fatal. -/
theorem c9_integer_menu_choices_handled_witness :
    (menuStep "7" ≠ MenuOutcome.crash ∧
      (menuStep "7" = MenuOutcome.exitLoop ↔ (7 : Int) = 0) ∧
      (¬((7 : Int) = 0 ∨ (7 : Int) = 1 ∨ (7 : Int) = 2 ∨ (7 : Int) = 3 ∨ (7 : Int) = 4) →
        menuStep "7" = MenuOutcome.invalid))
    ∧
    (vmMenuStep "7" ≠ MenuOutcome.crash ∧
      (vmMenuStep "7" = MenuOutcome.exitLoop ↔ (7 : Int) = 0) ∧
      (¬((7 : Int) = 0 ∨ (1 ≤ (7 : Int) ∧ (7 : Int) ≤ 6)) →
        vmMenuStep "7" = MenuOutcome.invalid)) :=
  c9_integer_menu_choices_handled "7" 7 (by decide)

/-- C10: target resolution matches the entered name as a case-insensitive
substring of VM names; with several matches, PowerOn/PowerOff act on every
matching VM (their calls are exactly the power calls over the full matched
list), while Snapshot, Delete, Reconfigure and Rename make calls only on the
first VM of the matched list. -/
theorem c10_target_resolution :
    (∀ vms flt vm, vm ∈ matchTargets vms flt ↔
        vm ∈ vms ∧ pyIn (pyLower flt) (pyLower vm.name) = true)
    ∧
    (∀ vms inp inv, pyStrip (inp 0) ≠ "" → matchTargets vms (pyStrip (inp 0)) ≠ [] →
      (power_on_vm vms inp inv).calls =
        ((matchTargets vms (pyStrip (inp 0))).filter
            (fun w => w.powerState ≠ PowerState.poweredOn)).map
          (fun w => Call.powerOn w.name))
    ∧
    (∀ vms inp inv, pyStrip (inp 0) ≠ "" → matchTargets vms (pyStrip (inp 0)) ≠ [] →
      (power_off_vm vms inp inv).calls =
        ((matchTargets vms (pyStrip (inp 0))).filter
            (fun w => w.powerState ≠ PowerState.poweredOff)).map
          (fun w => Call.powerOff w.name))
    ∧
    (∀ vms inp inv now vm rest, matchTargets vms (pyStrip (inp 0)) = vm :: rest →
      ∀ c ∈ (create_snapshot vms inp inv now).calls, c.vmNameOf = vm.name)
    ∧
    (∀ vms inp inv vm rest, matchTargets vms (pyStrip (inp 0)) = vm :: rest →
      ∀ c ∈ (delete_vm vms inp inv).calls, c.vmNameOf = vm.name)
    ∧
    (∀ vms inp inv vm rest, matchTargets vms (pyStrip (inp 0)) = vm :: rest →
      ∀ c ∈ (reconfigure_vm vms inp inv).calls, c.vmNameOf = vm.name)
    ∧
    (∀ vms inp inv vm rest, matchTargets vms (pyStrip (inp 0)) = vm :: rest →
      ∀ c ∈ (rename_vm vms inp inv).calls, c.vmNameOf = vm.name) := by
  refine ⟨?_, ?_, ?_, ?_, ?_, ?_, ?_⟩
  · intro vms flt vm
    simp [matchTargets, List.mem_filter, nameMatches]
  · intro vms inp inv h0 hne
    rcases hl : matchTargets vms (pyStrip (inp 0)) with _ | ⟨vm, rest⟩
    · exact absurd hl hne
    · simp [power_on_vm, h0, hl, powerOnLoop_calls_eq]
  · intro vms inp inv h0 hne
    rcases hl : matchTargets vms (pyStrip (inp 0)) with _ | ⟨vm, rest⟩
    · exact absurd hl hne
    · simp [power_off_vm, h0, hl, powerOffLoop_calls_eq]
  · intro vms inp inv now vm rest h c hc
    simp only [create_snapshot, h] at hc
    split_ifs at hc <;> simp_all [Call.vmNameOf]
  · intro vms inp inv vm rest h c hc
    simp only [delete_vm, h] at hc
    split_ifs at hc <;> cases c <;> simp_all [deleteFinal_calls_eq, Call.vmNameOf]
  · intro vms inp inv vm rest h c hc
    simp only [reconfigure_vm, h] at hc
    split_ifs at hc with hp hcf hcc
    · simp at hc
    · simp at hc
    · rcases hpi : pyInt (inp 3) with _ | cpu <;> rw [hpi] at hc
      · simp at hc
      · exact reconfMemStage_calls_name inp inv vm.name
          (handlerHeader "=== Reconfigure a VM ===" vms) (some cpu) 4 c hc
    · exact reconfMemStage_calls_name inp inv vm.name
        (handlerHeader "=== Reconfigure a VM ===" vms) none 3 c hc
  · intro vms inp inv vm rest h c hc
    simp only [rename_vm, h] at hc
    split_ifs at hc <;> simp_all [Call.vmNameOf]

/-- Witness for C10 at concrete inputs: the filter `db` matches `DB01`
case-insensitively; with two matches, PowerOff acts on both matching VMs
while Snapshot, Delete, Reconfigure and Rename call only on the first
matched VM `db01`. -/
theorem c10_target_resolution_witness :
    ((⟨"DB01", PowerState.poweredOn⟩ : VM) ∈
        matchTargets [⟨"DB01", PowerState.poweredOn⟩] "db" ↔
      (⟨"DB01", PowerState.poweredOn⟩ : VM) ∈ [(⟨"DB01", PowerState.poweredOn⟩ : VM)] ∧
        pyIn (pyLower "db") (pyLower "DB01") = true)
    ∧
    (power_on_vm [⟨"db01", PowerState.poweredOff⟩, ⟨"db02", PowerState.poweredOff⟩]
        (inpOf ["db"]) invokerOk).calls =
      ((matchTargets [⟨"db01", PowerState.poweredOff⟩, ⟨"db02", PowerState.poweredOff⟩]
          (pyStrip (inpOf ["db"] 0))).filter
          (fun w => w.powerState ≠ PowerState.poweredOn)).map
        (fun w => Call.powerOn w.name)
    ∧
    (power_off_vm [⟨"db01", PowerState.poweredOn⟩, ⟨"db02", PowerState.poweredOn⟩]
        (inpOf ["db"]) invokerOk).calls =
      ((matchTargets [⟨"db01", PowerState.poweredOn⟩, ⟨"db02", PowerState.poweredOn⟩]
          (pyStrip (inpOf ["db"] 0))).filter
          (fun w => w.powerState ≠ PowerState.poweredOff)).map
        (fun w => Call.powerOff w.name)
    ∧
    (∀ c ∈ (create_snapshot [⟨"db01", PowerState.poweredOn⟩, ⟨"db02", PowerState.poweredOn⟩]
        (inpOf ["db", "Y", "s", "d"]) invokerOk "TS").calls, c.vmNameOf = "db01")
    ∧
    (∀ c ∈ (delete_vm [⟨"db01", PowerState.poweredOff⟩, ⟨"db02", PowerState.poweredOff⟩]
        (inpOf ["db", "YES", "db01"]) invokerOk).calls, c.vmNameOf = "db01")
    ∧
    (∀ c ∈ (reconfigure_vm [⟨"db01", PowerState.poweredOff⟩, ⟨"db02", PowerState.poweredOff⟩]
        (inpOf ["db", "Y", "Y", "4", "Y", "8"]) invokerOk).calls, c.vmNameOf = "db01")
    ∧
    (∀ c ∈ (rename_vm [⟨"db01", PowerState.poweredOff⟩, ⟨"db02", PowerState.poweredOff⟩]
        (inpOf ["db", "Y", "db09"]) invokerOk).calls, c.vmNameOf = "db01") :=
  ⟨c10_target_resolution.1 [⟨"DB01", PowerState.poweredOn⟩] "db" ⟨"DB01", PowerState.poweredOn⟩,
   c10_target_resolution.2.1 [⟨"db01", PowerState.poweredOff⟩, ⟨"db02", PowerState.poweredOff⟩]
      (inpOf ["db"]) invokerOk (by decide) (by decide),
   c10_target_resolution.2.2.1 [⟨"db01", PowerState.poweredOn⟩, ⟨"db02", PowerState.poweredOn⟩]
      (inpOf ["db"]) invokerOk (by decide) (by decide),
   c10_target_resolution.2.2.2.1 [⟨"db01", PowerState.poweredOn⟩, ⟨"db02", PowerState.poweredOn⟩]
      (inpOf ["db", "Y", "s", "d"]) invokerOk "TS" ⟨"db01", PowerState.poweredOn⟩
      [⟨"db02", PowerState.poweredOn⟩] (by decide),
   c10_target_resolution.2.2.2.2.1 [⟨"db01", PowerState.poweredOff⟩, ⟨"db02", PowerState.poweredOff⟩]
      (inpOf ["db", "YES", "db01"]) invokerOk ⟨"db01", PowerState.poweredOff⟩
      [⟨"db02", PowerState.poweredOff⟩] (by decide),
   c10_target_resolution.2.2.2.2.2.1 [⟨"db01", PowerState.poweredOff⟩, ⟨"db02", PowerState.poweredOff⟩]
      (inpOf ["db", "Y", "Y", "4", "Y", "8"]) invokerOk ⟨"db01", PowerState.poweredOff⟩
      [⟨"db02", PowerState.poweredOff⟩] (by decide),
   c10_target_resolution.2.2.2.2.2.2 [⟨"db01", PowerState.poweredOff⟩, ⟨"db02", PowerState.poweredOff⟩]
      (inpOf ["db", "Y", "db09"]) invokerOk ⟨"db01", PowerState.poweredOff⟩
      [⟨"db02", PowerState.poweredOff⟩] (by decide)⟩

end VC
